import Mathlib

/-!
Verification of the terrain-classification pipeline implemented in
`src/ws_server/pdi.py`.

The pipeline decodes a base64 image, builds a "grass" mask and a "soil"
mask through several OpenCV stages, combines them with bitwise operations,
computes area percentages, composites a translucent overlay and assembles
a JSON-like response with a size budget.

Shallow embedding conventions:
* a mask (`cv2` single-channel `uint8` image) is a row-major flattened
  list of natural numbers, each pixel value in `0..255`;
* `cv2.bitwise_and` is pointwise `Nat.land`, `cv2.bitwise_not` is
  pointwise `255 - x` (the 8-bit complement), `cv2.countNonZero` counts
  the nonzero entries;
* float arithmetic of the vegetation index is modelled exactly over `ℚ`;
* the OpenCV library stages that are pure image transformations with no
  decision content for the claims (CLAHE, colour conversion, morphology,
  Gaussian blur, JPEG encoding, JSON stringification) are abstracted as
  deterministic functions bundled in an environment `Env`; the decision
  logic of `procesar_imagen` (decode failure, the line-102 exclusion,
  percentage computation, rounding, the 1,000,000-byte budget check) is
  embedded concretely.
-/

namespace Pdi

/-- A single-channel `uint8` mask, flattened row-major.  All the mask
operations the claims are about are pointwise or aggregate, so the 2-D
shape is irrelevant and a flat pixel list is a faithful model. -/
abbrev Mask := List Nat

/-- 8-bit complement, `cv2.bitwise_not` on one `uint8` pixel. -/
def bnot8 (x : Nat) : Nat := 255 - x

/-- `cv2.bitwise_not` on a mask. -/
def bitwise_not (m : Mask) : Mask := m.map bnot8

/-- `cv2.bitwise_and` on two masks (pointwise bitwise AND). -/
def bitwise_and (a b : Mask) : Mask := List.zipWith (fun x y => x &&& y) a b

/-- `cv2.bitwise_or` on two masks (pointwise bitwise OR). -/
def bitwise_or (a b : Mask) : Mask := List.zipWith (fun x y => x ||| y) a b

/-- Pixel accessor; out-of-range reads give 0 (an absent pixel). -/
def pixel (m : Mask) (i : Nat) : Nat := m.getD i 0

/-- `cv2.countNonZero`. -/
def countNonZero (m : Mask) : Nat := (m.filter (fun x => x != 0)).length

/-- `porcentaje_mascara` (pdi.py lines 152-155): percentage of nonzero
pixels, 0 when the image is empty. -/
def porcentaje_mascara (mask : Mask) (total_pixels : Nat) : ℚ :=
  if total_pixels = 0 then 0
  else ((countNonZero mask : ℚ) / (total_pixels : ℚ)) * 100

/-- Mask fusion, pdi.py line 80:
`mascara_pasto_final = cv2.bitwise_and(mascara_pasto_color, mascara_vegetacion_vi)`. -/
def mascara_pasto_fusion (mascara_pasto_color mascara_vegetacion_vi : Mask) : Mask :=
  bitwise_and mascara_pasto_color mascara_vegetacion_vi

/-- Mask fusion, pdi.py line 81:
`mascara_tierra_final = cv2.bitwise_and(mascara_tierra_color, cv2.bitwise_not(mascara_pasto_final))`. -/
def mascara_tierra_fusion (mascara_tierra_color mascara_pasto_final : Mask) : Mask :=
  bitwise_and mascara_tierra_color (bitwise_not mascara_pasto_final)

/-- Final exclusivity step, pdi.py line 102 (after the morphological
cleanup and Gaussian blur of both masks):
`mascara_tierra_final = cv2.bitwise_and(mascara_tierra_final, cv2.bitwise_not(mascara_pasto_final))`. -/
def mascara_tierra_excluida (mascara_tierra_final mascara_pasto_final : Mask) : Mask :=
  bitwise_and mascara_tierra_final (bitwise_not mascara_pasto_final)

/-- Two masks are (pixel-)disjoint when no position is nonzero in both. -/
def masks_disjoint (a b : Mask) : Prop := ∀ i, pixel a i = 0 ∨ pixel b i = 0

/-- A mask is binary when every pixel is 0 or 255 (the only values
`cv2.inRange`, thresholding and morphology produce; Gaussian blur breaks
this). -/
def mask_binary (m : Mask) : Prop := ∀ x ∈ m, x = 0 ∨ x = 255

/-- VARI denominator, pdi.py lines 66-67:
`denominador = (g + r - b)`, then `np.where(denominador == 0, 1e-4, denominador)`.
Channel order (b, g, r) is the order produced by `cv2.split` on a BGR image. -/
def vari_denominador (b g r : ℚ) : ℚ :=
  if g + r - b = 0 then 1 / 10000 else g + r - b

/-- VARI vegetation index, pdi.py line 68: `vari = (g - r) / denominador`. -/
def vari (b g r : ℚ) : ℚ := (g - r) / vari_denominador b g r

/-- Vegetation-index mask pixel, pdi.py line 71:
`mascara_vegetacion_vi = np.uint8(255 * (vari > 0.03))`. -/
def mascara_vegetacion_px (b g r : ℚ) : Nat :=
  if 3 / 100 < vari b g r then 255 else 0

/-- Overlay colour for grass, pdi.py line 112 (BGRA). -/
def color_pasto : List Nat := [200, 180, 60, 110]

/-- Overlay colour for soil, pdi.py line 113 (BGRA). -/
def color_tierra : List Nat := [120, 87, 120, 110]

/-- Overlay canvas pixel after the first assignment, pdi.py line 116:
`overlay[mascara_pasto_final > 0] = color_pasto` on a canvas initialised
to transparent zeros (line 110). -/
def overlay_tras_pasto (p : Nat) : List Nat :=
  if 0 < p then color_pasto else [0, 0, 0, 0]

/-- Overlay canvas pixel after the second assignment, pdi.py line 117:
`overlay[mascara_tierra_final > 0] = color_tierra`, overwriting whatever
the first assignment wrote. -/
def overlay_px (p t : Nat) : List Nat :=
  if 0 < t then color_tierra else overlay_tras_pasto p

instance (m : Mask) : Decidable (mask_binary m) :=
  inferInstanceAs (Decidable (∀ x ∈ m, x = 0 ∨ x = 255))

instance {e a : Type} [DecidableEq e] [DecidableEq a] : DecidableEq (Except e a)
  | .error x, .error y =>
    if h : x = y then isTrue (congrArg Except.error h)
    else isFalse (fun hc => h (Except.error.inj hc))
  | .error _, .ok _ => isFalse (fun hc => Except.noConfusion hc)
  | .ok _, .error _ => isFalse (fun hc => Except.noConfusion hc)
  | .ok x, .ok y =>
    if h : x = y then isTrue (congrArg Except.ok h)
    else isFalse (fun hc => h (Except.ok.inj hc))

/-! ### The `procesar_imagen` pipeline

Decoding, the front-end OpenCV stages (CLAHE, colour conversion,
`inRange`, morphology, connected components, Gaussian blur) and JPEG /
JSON encoding are deterministic library routines; they are bundled as
abstract functions in an `Env`.  The decision logic of `procesar_imagen`
(pdi.py lines 9-143) is embedded concretely on top of them. -/

/-- Python's `round` builtin (banker's rounding, ties to even), modelled
exactly on `ℚ`. -/
def pyRound (q : ℚ) : ℤ :=
  if Int.fract q = 1 / 2 then (if ⌊q⌋ % 2 = 0 then ⌊q⌋ else ⌊q⌋ + 1)
  else round q

/-- Python's `round(x, 2)`. -/
def round2 (q : ℚ) : ℚ := (pyRound (q * 100) : ℚ) / 100

/-- Python's `round(x, 3)`. -/
def round3 (q : ℚ) : ℚ := (pyRound (q * 1000) : ℚ) / 1000

/-- The decoded image (`cv2.imdecode` result): only its shape matters to
the embedded decision logic, the pixel content is consumed by the
abstracted stages in `Env`. -/
structure Image where
  rows : Nat
  cols : Nat
deriving DecidableEq

/-- The success response assembled at pdi.py lines 128-134 (field names
as in the source; `otros` is the spec's `other_fraction`,
`timestamp` is `time.time()` at assembly). -/
structure Response where
  pasto : ℚ
  tierra : ℚ
  otros : ℚ
  overlay_image : String
  timestamp : ℚ
deriving DecidableEq

/-- The final per-request result written by `main` (pdi.py lines
169-171): the response plus `tiempo_procesamiento`. -/
structure Resultado where
  pasto : ℚ
  tierra : ℚ
  otros : ℚ
  overlay_image : String
  timestamp : ℚ
  tiempo_procesamiento : ℚ
deriving DecidableEq

/-- The deterministic library routines the pipeline calls, abstracted:
`decode` is `base64.b64decode` + `np.frombuffer` + `cv2.imdecode`
(`none` covers both a decoding exception and a null image);
`masks_finales` is the whole mask front-end, pdi.py lines 22-100,
returning (`mascara_pasto_final`, `mascara_tierra_final`) as they stand
just before the line-102 exclusion (both already Gaussian-blurred);
`encode_jpeg` is `cv2.imencode('.jpg', img_final, quality)` followed by
`base64.b64encode(...).decode()` for the composite of the image with the
two final masks; `json_overhead` is the length of the serialized JSON
minus the length of the `overlay_image` string (the base64/data-URI
alphabet needs no JSON escaping, so `len(json.dumps(r))` is this
overhead plus `len(r.overlay_image)`). -/
structure Env where
  decode : String → Option Image
  masks_finales : Image → Mask × Mask
  encode_jpeg : Image → Mask × Mask → Nat → String
  json_overhead : ℚ → ℚ → ℚ → ℚ → Nat

/-- pdi.py line 133: the overlay string is a data URI. -/
def data_uri (s : String) : String := "data:image/jpeg;base64," ++ s

/-- `len(json.dumps(response))` (pdi.py line 137). -/
def serialized_len (env : Env) (r : Response) : Nat :=
  env.json_overhead r.pasto r.tierra r.otros r.timestamp + r.overlay_image.length

/-- The response assembled with the quality-85 overlay, pdi.py lines
19-134: the line-102 exclusion, the percentage computation (lines
104-107), the rounding and the data-URI overlay. -/
def respuesta_q85 (env : Env) (img : Image) (now : ℚ) : Response :=
  let total_pixels := img.rows * img.cols
  let masks := env.masks_finales img
  let mascara_pasto_final := masks.1
  let mascara_tierra_final := mascara_tierra_excluida masks.2 masks.1
  let porc_pasto := porcentaje_mascara mascara_pasto_final total_pixels
  let porc_tierra := porcentaje_mascara mascara_tierra_final total_pixels
  let porc_otros := max 0 (100 - porc_pasto - porc_tierra)
  { pasto := round2 porc_pasto
    tierra := round2 porc_tierra
    otros := round2 porc_otros
    overlay_image := data_uri (env.encode_jpeg img masks 85)
    timestamp := now }

/-- The same response with the overlay re-encoded at quality 65
in place (pdi.py lines 139-142). -/
def respuesta_q65 (env : Env) (img : Image) (now : ℚ) : Response :=
  { respuesta_q85 env img now with
    overlay_image := data_uri (env.encode_jpeg img (env.masks_finales img) 65) }

/-- `procesar_imagen` (pdi.py lines 9-143): decode (a failure raises
`ValueError("Error decodificando imagen: ...")`, modelled as `.error`),
assemble the response, then the single size-budget check of lines
136-142. -/
def procesar_imagen (env : Env) (base64_data_str : String) (now : ℚ) :
    Except String Response :=
  match env.decode base64_data_str with
  | none => .error "Error decodificando imagen"
  | some img =>
    let r := respuesta_q85 env img now
    if 1000000 < serialized_len env r then .ok (respuesta_q65 env img now)
    else .ok r

/-- One iteration of `main` (pdi.py lines 157-193) on a nonempty line:
any exception from `procesar_imagen` is caught and reported as an error
result (the process is never terminated), a success gets
`tiempo_procesamiento = round(elapsed, 3)` merged in. -/
def main_step (env : Env) (line : String) (now elapsed : ℚ) :
    Except String Resultado :=
  match procesar_imagen env line now with
  | .error e => .error ("Error procesando imagen: " ++ e)
  | .ok r =>
    .ok { pasto := r.pasto, tierra := r.tierra, otros := r.otros,
          overlay_image := r.overlay_image, timestamp := r.timestamp,
          tiempo_procesamiento := round3 elapsed }

/-- The 1×1 image used by the concrete environments. -/
def img11 : Image := { rows := 1, cols := 1 }

/-- A concrete environment whose decoder always fails. -/
def env_sin_imagen : Env :=
  { decode := fun _ => none
    masks_finales := fun _ => ([], [])
    encode_jpeg := fun _ _ _ => ""
    json_overhead := fun _ _ _ _ => 0 }

/-- C7 as stated is false: the code substitutes the quality-65 encoding
whenever the quality-85 serialization exceeds 1,000,000 bytes, but
nothing makes the substituted serialization smaller; with an encoder
whose quality-65 output is longer, the final result is strictly larger
than the quality-85 serialization. -/
def env_crece : Env :=
  { decode := fun _ => some { rows := 1, cols := 1 }
    masks_finales := fun _ => ([0], [0])
    encode_jpeg := fun _ _ q => if q = 85 then "" else "aa"
    json_overhead := fun _ _ _ _ => 1000001 }

/-- A concrete over-budget environment whose quality-65 encoding is
shorter. -/
def env_encoge : Env :=
  { decode := fun _ => some img11
    masks_finales := fun _ => ([0], [0])
    encode_jpeg := fun _ _ q => if q = 85 then "a" else ""
    json_overhead := fun _ _ _ _ => 1000001 }

/-- A concrete environment over budget even at quality 65. -/
def env_gigante : Env :=
  { decode := fun _ => some img11
    masks_finales := fun _ => ([0], [0])
    encode_jpeg := fun _ _ _ => ""
    json_overhead := fun _ _ _ _ => 2000000 }

/-- A concrete environment whose final masks overlap after the line-102
exclusion (grass pixel 1, soil pixel 2 — values Gaussian blur can
produce). -/
def env_solapado : Env :=
  { decode := fun _ => some img11
    masks_finales := fun _ => ([1], [2])
    encode_jpeg := fun _ _ _ => ""
    json_overhead := fun _ _ _ _ => 0 }

/-- A concrete environment with a binary grass mask (no blur overlap). -/
def env_normal : Env :=
  { decode := fun _ => some img11
    masks_finales := fun _ => ([255], [7])
    encode_jpeg := fun _ _ _ => "E"
    json_overhead := fun _ _ _ _ => 0 }

/-- The concrete `Resultado` of running `env_normal` on a 1×1 image. -/
def resultado_normal : Resultado :=
  { pasto := 100, tierra := 0, otros := 0,
    overlay_image := data_uri "E", timestamp := 0,
    tiempo_procesamiento := 2 }

/-! ### Pointwise lemmas about the mask operations -/

theorem pixel_nil (i : Nat) : pixel [] i = 0 := by
  simp [pixel]

theorem pixel_bitwise_and (a b : Mask) (i : Nat) :
    pixel (bitwise_and a b) i = pixel a i &&& pixel b i := by
  induction a generalizing b i with
  | nil => simp [pixel, bitwise_and]
  | cons x xs ih =>
    cases b with
    | nil => simp [pixel, bitwise_and]
    | cons y ys =>
      cases i with
      | zero => simp [pixel, bitwise_and]
      | succ j =>
        simpa [pixel, bitwise_and] using ih ys j

theorem pixel_bitwise_not_of_lt (a : Mask) (i : Nat) (h : i < a.length) :
    pixel (bitwise_not a) i = bnot8 (pixel a i) := by
  induction a generalizing i with
  | nil => simp at h
  | cons x xs ih =>
    cases i with
    | zero => simp [pixel, bitwise_not]
    | succ j =>
      have hj : j < xs.length := by simpa using h
      simpa [pixel, bitwise_not] using ih j hj

theorem pixel_eq_zero_of_le_length (a : Mask) (i : Nat) (h : a.length ≤ i) :
    pixel a i = 0 := by
  simp [pixel, List.getD_eq_getElem?_getD, List.getElem?_eq_none (by simpa using h)]

set_option maxRecDepth 2000 in
/-- Key bit-level fact behind the exclusion steps: for any `uint8`-style
pixel values, `t AND (NOT p)` shares no set bit with `p`, hence their
bitwise AND is zero.  (For `p > 255` the complement `255 - p` is 0 in ℕ
and the claim is trivial.) -/
theorem land_bnot8_land (t p : Nat) :
    (t &&& bnot8 p) &&& p = 0 := by
  rcases le_or_lt p 255 with hp | hp
  · have hsub : bnot8 p = 255 ^^^ p := by
      revert hp
      revert p
      decide
    rw [hsub]
    apply Nat.eq_of_testBit_eq
    intro i
    rcases lt_or_le i 8 with hi | hi
    · have h255 : Nat.testBit 255 i = true := by
        have h8 : (255 : Nat) = 2 ^ 8 - 1 := by norm_num
        rw [h8, Nat.testBit_two_pow_sub_one]
        simpa using hi
      simp only [Nat.testBit_and, Nat.testBit_xor, Nat.zero_testBit, h255]
      cases hpb : Nat.testBit p i <;> simp
    · have hpf : Nat.testBit p i = false := by
        apply Nat.testBit_lt_two_pow
        calc p ≤ 255 := hp
          _ < 2 ^ 8 := by norm_num
          _ ≤ 2 ^ i := Nat.pow_le_pow_right (by norm_num) hi
      simp [Nat.testBit_and, hpf]
  · have hb : bnot8 p = 0 := by
      rw [bnot8]
      omega
    rw [hb, Nat.and_zero, Nat.zero_and]

/-- Pointwise: every bit set in the excluded soil mask is clear in the
grass mask. -/
theorem pixel_excluida_land (t p : Mask) (i : Nat) :
    pixel (mascara_tierra_excluida t p) i &&& pixel p i = 0 := by
  rcases lt_or_le i p.length with h | h
  · rw [mascara_tierra_excluida, pixel_bitwise_and, pixel_bitwise_not_of_lt p i h]
    exact land_bnot8_land _ _
  · rw [pixel_eq_zero_of_le_length p i h, Nat.and_zero]

/-! ### C1 — disjointness of the final masks -/

/-- C1: the spec claims the final grass and soil masks are pixel-disjoint
after the cleanup stage.  The code computes
`soil := bitwise_and(soil, bitwise_not(grass))` (line 102) on masks that
have already been Gaussian-blurred, so their pixels range over all of
0..255, and the bitwise combination does not make them pixel-disjoint:
with a grass pixel 1 and a soil pixel 2 the excluded soil pixel is
`2 AND (NOT 1) = 2`, and both masks are nonzero at that pixel.  This
contradicts the code's own comment
("Asegurar que las mascaras sean mutuamente excluyentes"). -/
theorem c1_exclusion_not_disjoint :
    mascara_tierra_excluida [2] [1] = [2] ∧
      ¬ masks_disjoint [1] (mascara_tierra_excluida [2] [1]) := by
  constructor
  · decide
  · intro h
    rcases h 0 with h0 | h0 <;> revert h0 <;> decide

/-! ### C3 — fusion priority -/

/-- C3: at the fusion stage (lines 80-81) the fused grass mask is the
bitwise AND of the grass colour mask and the vegetation-index mask, and
the fused soil mask is the bitwise AND of the soil colour mask with the
complement of the fused grass mask; a pixel satisfying both raw colour
masks and the vegetation index (all 255 there, as `cv2.inRange` and the
thresholds produce) is classified grass (255), not soil (0), at fusion. -/
theorem c3_fusion_priority (pc vi sc : Mask) (i : Nat)
    (hpc : pixel pc i = 255) (hvi : pixel vi i = 255) (_hsc : 0 < pixel sc i) :
    pixel (mascara_pasto_fusion pc vi) i = 255 ∧
      pixel (mascara_tierra_fusion sc (mascara_pasto_fusion pc vi)) i = 0 := by
  have hpf : pixel (mascara_pasto_fusion pc vi) i = 255 := by
    rw [mascara_pasto_fusion, pixel_bitwise_and, hpc, hvi]
    decide
  refine ⟨hpf, ?_⟩
  have hlen : i < (mascara_pasto_fusion pc vi).length := by
    by_contra h
    rw [pixel_eq_zero_of_le_length _ i (le_of_not_lt h)] at hpf
    exact absurd hpf (by norm_num)
  rw [mascara_tierra_fusion, pixel_bitwise_and,
    pixel_bitwise_not_of_lt _ i hlen, hpf]
  have : bnot8 255 = 0 := by decide
  rw [this, Nat.and_zero]

/-- C3 witness: a concrete pixel in all three raw masks. -/
theorem c3_fusion_priority_witness :
    pixel [255] 0 = 255 ∧ pixel [255] 0 = 255 ∧ 0 < pixel [255] 0 ∧
      (pixel (mascara_pasto_fusion [255] [255]) 0 = 255 ∧
        pixel (mascara_tierra_fusion [255] (mascara_pasto_fusion [255] [255])) 0 = 0) :=
  ⟨by decide, by decide, by decide,
    c3_fusion_priority [255] [255] [255] 0 (by decide) (by decide) (by decide)⟩

/-! ### C4 — the vegetation index -/

/-- C4: the vegetation index of a pixel with channels (blue b, green g,
red r) is `(g - r) / d` with `d = g + r - b` when that sum is nonzero and
`d = 1e-4` otherwise; a pixel is vegetation-index positive exactly when
the index exceeds 0.03; the pixel green=200, red=100, blue=50 has index
0.4 and is in the mask. -/
theorem c4_vari :
    (∀ b g r : ℚ, vari b g r = (g - r) / (if g + r - b = 0 then 1 / 10000 else g + r - b)) ∧
      (∀ b g r : ℚ, mascara_vegetacion_px b g r = 255 ↔ 3 / 100 < vari b g r) ∧
      vari 50 200 100 = 2 / 5 ∧
      mascara_vegetacion_px 50 200 100 = 255 := by
  refine ⟨fun b g r => rfl, fun b g r => ?_, ?_, ?_⟩
  · rw [mascara_vegetacion_px]
    split
    next h => exact iff_of_true rfl h
    next h => exact iff_of_false (by norm_num) h
  · norm_num [vari, vari_denominador]
  · norm_num [mascara_vegetacion_px, vari, vari_denominador]

/-! ### C9 — overlay paint order -/

/-- C9: the overlay canvas is painted with the grass colour first
(line 116) and the soil colour second (line 117), so a pixel nonzero in
both final masks ends up with the soil colour, the reverse of the
classification priority of the fusion stage. -/
theorem c9_overlay_soil_wins (p t : Nat) (hp : 0 < p) (ht : 0 < t) :
    overlay_px p t = color_tierra ∧
      overlay_tras_pasto p = color_pasto ∧
      color_tierra ≠ color_pasto := by
  refine ⟨?_, ?_, by decide⟩
  · rw [overlay_px, if_pos ht]
  · rw [overlay_tras_pasto, if_pos hp]

/-- C9 witness: a pixel nonzero in both masks. -/
theorem c9_overlay_soil_wins_witness :
    0 < 7 ∧ 0 < 9 ∧
      (overlay_px 7 9 = color_tierra ∧
        overlay_tras_pasto 7 = color_pasto ∧
        color_tierra ≠ color_pasto) :=
  ⟨by decide, by decide, c9_overlay_soil_wins 7 9 (by decide) (by decide)⟩

/-! ### C6 — decode failure -/

/-- C6: when the payload cannot be decoded (or decodes to a null image),
`procesar_imagen` fails with the decode-error message — a catchable
failure, never a success result with zero fractions — and the `main`
loop converts it into an error report instead of crashing. -/
theorem c6_decode_error (env : Env) (input : String) (now elapsed : ℚ)
    (h : env.decode input = none) :
    procesar_imagen env input now = .error "Error decodificando imagen" ∧
      (∀ r : Response, procesar_imagen env input now ≠ .ok r) ∧
      main_step env input now elapsed =
        .error ("Error procesando imagen: " ++ "Error decodificando imagen") := by
  have hp : procesar_imagen env input now = .error "Error decodificando imagen" := by
    simp only [procesar_imagen, h]
  refine ⟨hp, ?_, ?_⟩
  · intro r hr
    rw [hp] at hr
    cases hr
  · simp only [main_step, hp]

/-- C6 witness: the failing decoder on a concrete payload. -/
theorem c6_decode_error_witness :
    env_sin_imagen.decode "not-an-image" = none ∧
      (procesar_imagen env_sin_imagen "not-an-image" 0 = .error "Error decodificando imagen" ∧
        (∀ r : Response, procesar_imagen env_sin_imagen "not-an-image" 0 ≠ .ok r) ∧
        main_step env_sin_imagen "not-an-image" 0 0 =
          .error ("Error procesando imagen: " ++ "Error decodificando imagen")) :=
  ⟨rfl, c6_decode_error env_sin_imagen "not-an-image" 0 0 rfl⟩

/-! ### C5 — determinism of the fractions -/

/-- C5: the classification is deterministic — two runs on the same input
in the same environment yield the same grass, soil and other fractions;
only the `now` timestamp (and, at `main` level, the measured duration)
may differ, and neither influences the fractions.  (The timestamp can
influence the serialized length and hence which overlay encoding is
kept, but not the numeric fractions.) -/
theorem c5_determinism (env : Env) (input : String) (t1 t2 : ℚ) :
    (procesar_imagen env input t1).map (fun r => (r.pasto, r.tierra, r.otros)) =
      (procesar_imagen env input t2).map (fun r => (r.pasto, r.tierra, r.otros)) := by
  cases hdec : env.decode input with
  | none => simp [procesar_imagen, hdec]
  | some img =>
    simp only [procesar_imagen, hdec]
    split <;> split <;> rfl

/-! ### C7 — the size budget substitution -/

/-- C7 counterexample: the quality-85 serialization exceeds the budget,
the substitution happens, and the final serialization is strictly
larger, not smaller. -/
theorem c7_counterexample :
    procesar_imagen env_crece "x" 0 = .ok (respuesta_q65 env_crece img11 0) ∧
      1000000 < serialized_len env_crece (respuesta_q85 env_crece img11 0) ∧
      serialized_len env_crece (respuesta_q85 env_crece img11 0) <
        serialized_len env_crece (respuesta_q65 env_crece img11 0) := by
  refine ⟨?_, by decide, by decide⟩
  rfl

/-- C7 amended: if the quality-85 serialization exceeds 1,000,000 bytes
the assembler returns the response with the overlay replaced, in place,
by the quality-65 re-encoding of the same composite; the final
serialization is smaller than the quality-85 one provided the quality-65
encoding is shorter than the quality-85 encoding (the code does not
enforce this); within budget the response is returned unchanged. -/
theorem c7_amended (env : Env) (input : String) (now : ℚ) (img : Image)
    (hdec : env.decode input = some img) :
    (1000000 < serialized_len env (respuesta_q85 env img now) →
      procesar_imagen env input now = .ok (respuesta_q65 env img now) ∧
        ((env.encode_jpeg img (env.masks_finales img) 65).length <
            (env.encode_jpeg img (env.masks_finales img) 85).length →
          serialized_len env (respuesta_q65 env img now) <
            serialized_len env (respuesta_q85 env img now))) ∧
      (serialized_len env (respuesta_q85 env img now) ≤ 1000000 →
        procesar_imagen env input now = .ok (respuesta_q85 env img now)) := by
  constructor
  · intro hbig
    constructor
    · simp only [procesar_imagen, hdec]
      rw [if_pos hbig]
    · intro hlt
      have h65 : serialized_len env (respuesta_q65 env img now) =
          env.json_overhead (respuesta_q85 env img now).pasto
              (respuesta_q85 env img now).tierra (respuesta_q85 env img now).otros
              (respuesta_q85 env img now).timestamp +
            ("data:image/jpeg;base64,".length +
              (env.encode_jpeg img (env.masks_finales img) 65).length) := by
        simp [serialized_len, respuesta_q65, data_uri, String.length_append]
      have h85 : serialized_len env (respuesta_q85 env img now) =
          env.json_overhead (respuesta_q85 env img now).pasto
              (respuesta_q85 env img now).tierra (respuesta_q85 env img now).otros
              (respuesta_q85 env img now).timestamp +
            ("data:image/jpeg;base64,".length +
              (env.encode_jpeg img (env.masks_finales img) 85).length) := by
        conv_lhs => rw [respuesta_q85]
        simp [serialized_len, respuesta_q85, data_uri, String.length_append]
      rw [h65, h85]
      omega
  · intro hsmall
    simp only [procesar_imagen, hdec]
    rw [if_neg (not_lt.mpr hsmall)]

/-- C7 amended witness: budget exceeded, quality-65 encoding shorter,
substitution observed and the serialization shrinks. -/
theorem c7_amended_witness :
    env_encoge.decode "x" = some img11 ∧
      procesar_imagen env_encoge "x" 0 = .ok (respuesta_q65 env_encoge img11 0) ∧
      serialized_len env_encoge (respuesta_q65 env_encoge img11 0) <
        serialized_len env_encoge (respuesta_q85 env_encoge img11 0) :=
  ⟨rfl, ((c7_amended env_encoge "x" 0 img11 rfl).1 (by decide)).1,
    ((c7_amended env_encoge "x" 0 img11 rfl).1 (by decide)).2 (by decide)⟩

/-! ### C10 — the budget is checked exactly once -/

/-- C10: the size check runs exactly once; if even the quality-65
substitution is still over 1,000,000 bytes, that oversized response is
returned as a success anyway — no further quality reduction, no error. -/
theorem c10_budget_checked_once (env : Env) (input : String) (now : ℚ)
    (img : Image)
    (hdec : env.decode input = some img)
    (h85 : 1000000 < serialized_len env (respuesta_q85 env img now))
    (h65 : 1000000 < serialized_len env (respuesta_q65 env img now)) :
    procesar_imagen env input now = .ok (respuesta_q65 env img now) ∧
      1000000 < serialized_len env (respuesta_q65 env img now) ∧
      (respuesta_q65 env img now).overlay_image =
        data_uri (env.encode_jpeg img (env.masks_finales img) 65) := by
  refine ⟨?_, h65, rfl⟩
  simp only [procesar_imagen, hdec]
  rw [if_pos h85]

/-- C10 witness: both serializations exceed the budget and the oversized
quality-65 response is still returned as a success. -/
theorem c10_budget_checked_once_witness :
    env_gigante.decode "x" = some img11 ∧
      1000000 < serialized_len env_gigante (respuesta_q85 env_gigante img11 0) ∧
      1000000 < serialized_len env_gigante (respuesta_q65 env_gigante img11 0) ∧
      (procesar_imagen env_gigante "x" 0 = .ok (respuesta_q65 env_gigante img11 0) ∧
        1000000 < serialized_len env_gigante (respuesta_q65 env_gigante img11 0) ∧
        (respuesta_q65 env_gigante img11 0).overlay_image =
          data_uri (env_gigante.encode_jpeg img11 (env_gigante.masks_finales img11) 65)) :=
  ⟨rfl, by decide, by decide,
    c10_budget_checked_once env_gigante "x" 0 img11 rfl (by decide) (by decide)⟩

/-! ### Rounding lemmas (Python's banker's rounding) -/

theorem eq_floor_add_half {q : ℚ} (h : Int.fract q = 1 / 2) :
    q = (⌊q⌋ : ℚ) + 1 / 2 := by
  have h2 := Int.floor_add_fract q
  rw [h] at h2
  linarith

theorem pyRound_le_add_half (q : ℚ) : (pyRound q : ℚ) ≤ q + 1 / 2 := by
  rw [pyRound]
  split
  next h =>
    have hq := eq_floor_add_half h
    split <;> push_cast <;> linarith
  next h =>
    rw [round_eq]
    have := Int.floor_le (q + 1 / 2)
    linarith

theorem pyRound_lt_add_half {q : ℚ} (h : Int.fract q ≠ 1 / 2) :
    (pyRound q : ℚ) < q + 1 / 2 := by
  rw [pyRound, if_neg h, round_eq]
  rcases lt_or_eq_of_le (Int.floor_le (q + 1 / 2)) with hlt | heq
  · exact hlt
  · exfalso
    apply h
    have hq : q = ((⌊q + 1 / 2⌋ - 1 : ℤ) : ℚ) + 1 / 2 := by
      push_cast
      linarith
    rw [hq, Int.fract_int_add]
    rw [Int.fract_eq_self.mpr (by norm_num)]

theorem pyRound_nonneg {q : ℚ} (h : 0 ≤ q) : 0 ≤ pyRound q := by
  have hfl : (0 : ℤ) ≤ ⌊q⌋ := Int.floor_nonneg.mpr h
  rw [pyRound]
  split
  · split <;> omega
  · rw [round_eq]
    have : (0 : ℤ) ≤ ⌊q + 1 / 2⌋ := Int.floor_nonneg.mpr (by linarith)
    omega

theorem pyRound_le_int {q : ℚ} {N : ℤ} (h : q ≤ (N : ℚ)) : pyRound q ≤ N := by
  rw [pyRound]
  split
  next hf =>
    have hq := eq_floor_add_half hf
    have h1 : (⌊q⌋ : ℚ) < (N : ℚ) := by linarith
    have h2 : ⌊q⌋ < N := by exact_mod_cast h1
    split <;> omega
  next hf =>
    rw [round_eq]
    have h1 : q + 1 / 2 < ((N + 1 : ℤ) : ℚ) := by push_cast; linarith
    have h2 : ⌊q + 1 / 2⌋ < N + 1 := Int.floor_lt.mpr h1
    omega

/-- Banker's rounding never pushes a pair above an even integer bound on
its sum: the only critical case is two exact .5 ties, and there the two
floors have opposite parity, so exactly one of them rounds up. -/
theorem pyRound_add_le (a b : ℚ) (N : ℤ) (hN : N % 2 = 0)
    (hab : a + b ≤ (N : ℚ)) : pyRound a + pyRound b ≤ N := by
  by_cases ha : Int.fract a = 1 / 2
  · by_cases hb : Int.fract b = 1 / 2
    · have hqa := eq_floor_add_half ha
      have hqb := eq_floor_add_half hb
      have hsum : (⌊a⌋ : ℚ) + (⌊b⌋ : ℚ) + 1 ≤ (N : ℚ) := by linarith
      have hsum2 : ⌊a⌋ + ⌊b⌋ + 1 ≤ N := by exact_mod_cast hsum
      rw [pyRound, if_pos ha, pyRound, if_pos hb]
      split <;> split <;> omega
    · have h1 := pyRound_le_add_half a
      have h2 := pyRound_lt_add_half hb
      have h3 : (pyRound a : ℚ) + (pyRound b : ℚ) < ((N + 1 : ℤ) : ℚ) := by
        push_cast
        linarith
      have h4 : pyRound a + pyRound b < N + 1 := by exact_mod_cast h3
      omega
  · have h1 := pyRound_lt_add_half ha
    have h2 := pyRound_le_add_half b
    have h3 : (pyRound a : ℚ) + (pyRound b : ℚ) < ((N + 1 : ℤ) : ℚ) := by
      push_cast
      linarith
    have h4 : pyRound a + pyRound b < N + 1 := by exact_mod_cast h3
    omega

theorem round2_nonneg {x : ℚ} (h : 0 ≤ x) : 0 ≤ round2 x := by
  rw [round2]
  have h1 : (0 : ℤ) ≤ pyRound (x * 100) := pyRound_nonneg (by linarith)
  have h2 : (0 : ℚ) ≤ (pyRound (x * 100) : ℚ) := by exact_mod_cast h1
  linarith

theorem round2_le_100 {x : ℚ} (h : x ≤ 100) : round2 x ≤ 100 := by
  rw [round2]
  have h1 : pyRound (x * 100) ≤ (10000 : ℤ) := pyRound_le_int (by push_cast; linarith)
  have h2 : (pyRound (x * 100) : ℚ) ≤ 10000 := by exact_mod_cast h1
  linarith

theorem round2_add_le_100 {x y : ℚ} (hxy : x + y ≤ 100) :
    round2 x + round2 y ≤ 100 := by
  rw [round2, round2]
  have h1 : pyRound (x * 100) + pyRound (y * 100) ≤ (10000 : ℤ) :=
    pyRound_add_le (x * 100) (y * 100) 10000 (by norm_num) (by push_cast; linarith)
  have h2 : (pyRound (x * 100) : ℚ) + (pyRound (y * 100) : ℚ) ≤ 10000 := by
    exact_mod_cast h1
  linarith

/-! ### Counting lemmas -/

theorem countNonZero_le_length (m : Mask) : countNonZero m ≤ m.length :=
  List.length_filter_le _ m

theorem countNonZero_cons (x : Nat) (l : Mask) :
    countNonZero (x :: l) = (if x = 0 then 0 else 1) + countNonZero l := by
  rw [countNonZero, countNonZero, List.filter_cons]
  by_cases hx : x = 0
  · simp [hx]
  · simp [hx]
    omega

theorem length_mascara_tierra_excluida (t p : Mask) :
    (mascara_tierra_excluida t p).length = min t.length p.length := by
  simp [mascara_tierra_excluida, bitwise_and, bitwise_not]

/-- When the grass mask is binary (0/255), the line-102 exclusion makes
the masks pixel-disjoint, hence the nonzero counts add up to at most the
pixel total. -/
theorem count_binary_exclusion (p t : Mask) (hbin : mask_binary p)
    (hlen : t.length = p.length) :
    countNonZero p + countNonZero (mascara_tierra_excluida t p) ≤ p.length := by
  induction p generalizing t with
  | nil =>
    have ht : t = [] := List.length_eq_zero.mp hlen
    subst ht
    simp [countNonZero, mascara_tierra_excluida, bitwise_and, bitwise_not]
  | cons x xs ih =>
    cases t with
    | nil => simp at hlen
    | cons y ys =>
      have hlen2 : ys.length = xs.length := by simpa using hlen
      have hx : x = 0 ∨ x = 255 := hbin x (by simp)
      have hbin2 : mask_binary xs := fun v hv => hbin v (by simp [hv])
      have ihy := ih ys hbin2 hlen2
      have hexp : mascara_tierra_excluida (y :: ys) (x :: xs) =
          (y &&& bnot8 x) :: mascara_tierra_excluida ys xs := by
        simp [mascara_tierra_excluida, bitwise_and, bitwise_not]
      rw [hexp, countNonZero_cons, countNonZero_cons]
      rcases hx with hx | hx
      · subst hx
        have he : (if y &&& bnot8 0 = 0 then 0 else 1) ≤ 1 := by
          split <;> norm_num
        simp only [List.length_cons, if_true]
        omega
      · subst hx
        have hzero : (y &&& bnot8 255) = 0 := by
          have hb : bnot8 255 = 0 := by decide
          rw [hb, Nat.and_zero]
        rw [hzero]
        simp only [List.length_cons, if_true]
        norm_num
        omega

/-! ### Percentage lemmas -/

theorem porcentaje_nonneg (m : Mask) (T : Nat) : 0 ≤ porcentaje_mascara m T := by
  rw [porcentaje_mascara]
  split
  · norm_num
  · positivity

theorem porcentaje_le_100 (m : Mask) (T : Nat) (h : countNonZero m ≤ T) :
    porcentaje_mascara m T ≤ 100 := by
  rw [porcentaje_mascara]
  split
  · norm_num
  next hT =>
    have hTpos : (0 : ℚ) < (T : ℚ) := by
      exact_mod_cast Nat.pos_of_ne_zero hT
    rw [div_mul_eq_mul_div, div_le_iff₀ hTpos]
    have hc : (countNonZero m : ℚ) ≤ (T : ℚ) := by exact_mod_cast h
    linarith

theorem porcentaje_add_le_100 (m1 m2 : Mask) (T : Nat)
    (h : countNonZero m1 + countNonZero m2 ≤ T) :
    porcentaje_mascara m1 T + porcentaje_mascara m2 T ≤ 100 := by
  rw [porcentaje_mascara, porcentaje_mascara]
  split
  · norm_num
  next hT =>
    have hTpos : (0 : ℚ) < (T : ℚ) := by
      exact_mod_cast Nat.pos_of_ne_zero hT
    rw [div_mul_eq_mul_div, div_mul_eq_mul_div, div_add_div_same, div_le_iff₀ hTpos]
    have hc : (countNonZero m1 : ℚ) + (countNonZero m2 : ℚ) ≤ (T : ℚ) := by
      exact_mod_cast h
    linarith

/-- The fields of a successful `procesar_imagen` result: both budget
branches carry the same numeric fields, and the overlay is always a data
URI. -/
theorem procesar_ok_fields (env : Env) (input : String) (now : ℚ)
    (img : Image) (r : Response)
    (hdec : env.decode input = some img)
    (hok : procesar_imagen env input now = .ok r) :
    r.pasto = (respuesta_q85 env img now).pasto ∧
      r.tierra = (respuesta_q85 env img now).tierra ∧
      r.otros = (respuesta_q85 env img now).otros ∧
      r.timestamp = now ∧
      (∃ s : String, r.overlay_image = "data:image/jpeg;base64," ++ s) := by
  simp only [procesar_imagen, hdec] at hok
  split at hok <;>
    (injection hok with h; subst h;
      exact ⟨rfl, rfl, rfl, rfl, ⟨_, rfl⟩⟩)

/-! ### Evaluation helpers for concrete runs -/

theorem pyRound_intCast (n : ℤ) : pyRound (n : ℚ) = n := by
  rw [pyRound, Int.fract_intCast, if_neg (by norm_num)]
  exact round_intCast n

theorem round2_100 : round2 100 = 100 := by
  rw [round2]
  have h : (100 : ℚ) * 100 = ((10000 : ℤ) : ℚ) := by norm_num
  rw [h, pyRound_intCast]
  norm_num

theorem round2_0 : round2 0 = 0 := by
  rw [round2]
  have h : (0 : ℚ) * 100 = ((0 : ℤ) : ℚ) := by norm_num
  rw [h, pyRound_intCast]
  norm_num

theorem round3_2 : round3 2 = 2 := by
  rw [round3]
  have h : (2 : ℚ) * 1000 = ((2000 : ℤ) : ℚ) := by norm_num
  rw [h, pyRound_intCast]
  norm_num

theorem porcentaje_singleton_nonzero (x : Nat) (hx : x ≠ 0) :
    porcentaje_mascara [x] 1 = 100 := by
  rw [porcentaje_mascara, if_neg (by norm_num)]
  have hc : countNonZero [x] = 1 := by
    simp [countNonZero, hx]
  rw [hc]
  norm_num

theorem porcentaje_zero_singleton : porcentaje_mascara [0] 1 = 0 := by
  rw [porcentaje_mascara, if_neg (by norm_num)]
  have hc : countNonZero [0] = 0 := by decide
  rw [hc]
  norm_num

/-! ### C2 — the fraction invariant -/

/-- C2 counterexample: on the overlapping masks the returned grass and
soil fractions are each 100, so their sum is 200 > 100, refuting
`grass_fraction + soil_fraction ≤ 100` as a universal invariant. -/
theorem c2_counterexample :
    (procesar_imagen env_solapado "x" 0).map (fun r => r.pasto + r.tierra) =
        .ok 200 ∧
      ¬ ((200 : ℚ) ≤ 100) := by
  have hroute : procesar_imagen env_solapado "x" 0 =
      .ok (respuesta_q85 env_solapado img11 0) := rfl
  have hp2 : (respuesta_q85 env_solapado img11 0).pasto = 100 := by
    show round2 (porcentaje_mascara [1] 1) = 100
    rw [porcentaje_singleton_nonzero 1 (by norm_num), round2_100]
  have ht2 : (respuesta_q85 env_solapado img11 0).tierra = 100 := by
    show round2 (porcentaje_mascara (mascara_tierra_excluida [2] [1]) 1) = 100
    have he : mascara_tierra_excluida [2] [1] = [2] := by decide
    rw [he, porcentaje_singleton_nonzero 2 (by norm_num), round2_100]
  constructor
  · rw [hroute]
    show Except.ok ((respuesta_q85 env_solapado img11 0).pasto +
        (respuesta_q85 env_solapado img11 0).tierra) = Except.ok 200
    rw [hp2, ht2]
    exact congrArg Except.ok (by norm_num)
  · norm_num

/-- C2 amended: for every successful run, `other = max(0, 100 - grass -
soil)` (computed from the unrounded fractions) and `other ≥ 0` hold
unconditionally; `grass_fraction + soil_fraction ≤ 100` holds whenever
the cleaned grass mask is binary (0/255-valued, which the line-102
exclusion then turns into pixel disjointness) and the masks have the
image's pixel count — it can fail on the non-binary masks the Gaussian
blur produces. -/
theorem c2_amended (env : Env) (input : String) (now : ℚ) (img : Image)
    (r : Response)
    (hdec : env.decode input = some img)
    (hok : procesar_imagen env input now = .ok r) :
    0 ≤ r.otros ∧
      r.otros = round2 (max 0 (100 -
        porcentaje_mascara (env.masks_finales img).1 (img.rows * img.cols) -
        porcentaje_mascara
          (mascara_tierra_excluida (env.masks_finales img).2 (env.masks_finales img).1)
          (img.rows * img.cols))) ∧
      (mask_binary (env.masks_finales img).1 →
        (env.masks_finales img).1.length = img.rows * img.cols →
        (env.masks_finales img).2.length = img.rows * img.cols →
        r.pasto + r.tierra ≤ 100) := by
  obtain ⟨hp, ht, ho, -, -⟩ := procesar_ok_fields env input now img r hdec hok
  refine ⟨?_, ?_, ?_⟩
  · rw [ho]
    exact round2_nonneg (le_max_left 0 _)
  · rw [ho]
    rfl
  · intro hbin hlp hlt
    have hcount : countNonZero (env.masks_finales img).1 +
        countNonZero (mascara_tierra_excluida (env.masks_finales img).2
          (env.masks_finales img).1) ≤ img.rows * img.cols := by
      have h := count_binary_exclusion (env.masks_finales img).1
        (env.masks_finales img).2 hbin (by rw [hlp, hlt])
      rw [hlp] at h
      exact h
    have hsum := porcentaje_add_le_100 (env.masks_finales img).1
      (mascara_tierra_excluida (env.masks_finales img).2 (env.masks_finales img).1)
      (img.rows * img.cols) hcount
    rw [hp, ht]
    exact round2_add_le_100 hsum

/-- C2 amended witness: a binary 1×1 grass mask; the run succeeds, the
unconditional conclusions hold, and the embedded implication fires on
the concrete binary mask, giving the sum bound. -/
theorem c2_amended_witness :
    env_normal.decode "x" = some img11 ∧
      procesar_imagen env_normal "x" 0 = .ok (respuesta_q85 env_normal img11 0) ∧
      (0 ≤ (respuesta_q85 env_normal img11 0).otros ∧
        (respuesta_q85 env_normal img11 0).otros = round2 (max 0 (100 -
          porcentaje_mascara (env_normal.masks_finales img11).1
            (img11.rows * img11.cols) -
          porcentaje_mascara
            (mascara_tierra_excluida (env_normal.masks_finales img11).2
              (env_normal.masks_finales img11).1)
            (img11.rows * img11.cols))) ∧
        (mask_binary (env_normal.masks_finales img11).1 →
          (env_normal.masks_finales img11).1.length = img11.rows * img11.cols →
          (env_normal.masks_finales img11).2.length = img11.rows * img11.cols →
          (respuesta_q85 env_normal img11 0).pasto +
            (respuesta_q85 env_normal img11 0).tierra ≤ 100)) ∧
      (respuesta_q85 env_normal img11 0).pasto +
        (respuesta_q85 env_normal img11 0).tierra ≤ 100 :=
  ⟨rfl, rfl,
    c2_amended env_normal "x" 0 img11 (respuesta_q85 env_normal img11 0) rfl rfl,
    (c2_amended env_normal "x" 0 img11 (respuesta_q85 env_normal img11 0)
        rfl rfl).2.2 (by decide) rfl rfl⟩

/-! ### C8 — the shape of a successful result -/

/-- C8: a successful invocation yields exactly the fields of `Resultado`:
the three fractions, in [0, 100] and each an integer multiple of 1/100
(two decimal places), the overlay as a data-URI string, the timestamp
taken at assembly, and the processing duration rounded to three decimal
places. -/
theorem c8_result_fields (env : Env) (line : String) (now elapsed : ℚ)
    (img : Image) (res : Resultado)
    (hdec : env.decode line = some img)
    (hlp : (env.masks_finales img).1.length = img.rows * img.cols)
    (hlt : (env.masks_finales img).2.length = img.rows * img.cols)
    (hok : main_step env line now elapsed = .ok res) :
    (0 ≤ res.pasto ∧ res.pasto ≤ 100 ∧ ∃ k : ℤ, res.pasto = (k : ℚ) / 100) ∧
      (0 ≤ res.tierra ∧ res.tierra ≤ 100 ∧ ∃ k : ℤ, res.tierra = (k : ℚ) / 100) ∧
      (0 ≤ res.otros ∧ res.otros ≤ 100 ∧ ∃ k : ℤ, res.otros = (k : ℚ) / 100) ∧
      (∃ s : String, res.overlay_image = "data:image/jpeg;base64," ++ s) ∧
      res.timestamp = now ∧
      res.tiempo_procesamiento = round3 elapsed ∧
      (∃ k : ℤ, res.tiempo_procesamiento = (k : ℚ) / 1000) := by
  rw [main_step] at hok
  cases hproc : procesar_imagen env line now with
  | error e => rw [hproc] at hok; cases hok
  | ok r =>
    rw [hproc] at hok
    injection hok with h
    subst h
    obtain ⟨hp, ht, ho, hts, hov⟩ := procesar_ok_fields env line now img r hdec hproc
    have hT : countNonZero (env.masks_finales img).1 ≤ img.rows * img.cols := by
      rw [← hlp]
      exact countNonZero_le_length _
    have hT2 : countNonZero (mascara_tierra_excluida (env.masks_finales img).2
        (env.masks_finales img).1) ≤ img.rows * img.cols := by
      have hle := countNonZero_le_length
        (mascara_tierra_excluida (env.masks_finales img).2 (env.masks_finales img).1)
      rw [length_mascara_tierra_excluida, hlp, hlt] at hle
      simpa using hle
    have hpp0 := porcentaje_nonneg (env.masks_finales img).1 (img.rows * img.cols)
    have hpt0 := porcentaje_nonneg
      (mascara_tierra_excluida (env.masks_finales img).2 (env.masks_finales img).1)
      (img.rows * img.cols)
    refine ⟨⟨?_, ?_, ?_⟩, ⟨?_, ?_, ?_⟩, ⟨?_, ?_, ?_⟩, hov, hts, rfl, ⟨_, rfl⟩⟩
    · rw [hp]
      exact round2_nonneg hpp0
    · rw [hp]
      exact round2_le_100 (porcentaje_le_100 _ _ hT)
    · rw [hp]
      exact ⟨_, rfl⟩
    · rw [ht]
      exact round2_nonneg hpt0
    · rw [ht]
      exact round2_le_100 (porcentaje_le_100 _ _ hT2)
    · rw [ht]
      exact ⟨_, rfl⟩
    · rw [ho]
      exact round2_nonneg (le_max_left 0 _)
    · rw [ho]
      exact round2_le_100 (by
        apply max_le (by norm_num)
        linarith)
    · rw [ho]
      exact ⟨_, rfl⟩

/-- C8 witness: a concrete successful run producing the full field set. -/
theorem c8_result_fields_witness :
    env_normal.decode "x" = some img11 ∧
      (env_normal.masks_finales img11).1.length = img11.rows * img11.cols ∧
      (env_normal.masks_finales img11).2.length = img11.rows * img11.cols ∧
      main_step env_normal "x" 0 2 = .ok resultado_normal ∧
      ((0 ≤ resultado_normal.pasto ∧ resultado_normal.pasto ≤ 100 ∧
          ∃ k : ℤ, resultado_normal.pasto = (k : ℚ) / 100) ∧
        (0 ≤ resultado_normal.tierra ∧ resultado_normal.tierra ≤ 100 ∧
          ∃ k : ℤ, resultado_normal.tierra = (k : ℚ) / 100) ∧
        (0 ≤ resultado_normal.otros ∧ resultado_normal.otros ≤ 100 ∧
          ∃ k : ℤ, resultado_normal.otros = (k : ℚ) / 100) ∧
        (∃ s : String, resultado_normal.overlay_image = "data:image/jpeg;base64," ++ s) ∧
        resultado_normal.timestamp = 0 ∧
        resultado_normal.tiempo_procesamiento = round3 2 ∧
        (∃ k : ℤ, resultado_normal.tiempo_procesamiento = (k : ℚ) / 1000)) := by
  have hp : (respuesta_q85 env_normal img11 0).pasto = 100 := by
    show round2 (porcentaje_mascara [255] 1) = 100
    rw [porcentaje_singleton_nonzero 255 (by norm_num), round2_100]
  have he : mascara_tierra_excluida [7] [255] = [0] := by decide
  have ht : (respuesta_q85 env_normal img11 0).tierra = 0 := by
    show round2 (porcentaje_mascara (mascara_tierra_excluida [7] [255]) 1) = 0
    rw [he, porcentaje_zero_singleton, round2_0]
  have ho : (respuesta_q85 env_normal img11 0).otros = 0 := by
    show round2 (max 0 (100 - porcentaje_mascara [255] 1 -
      porcentaje_mascara (mascara_tierra_excluida [7] [255]) 1)) = 0
    rw [he, porcentaje_singleton_nonzero 255 (by norm_num), porcentaje_zero_singleton]
    have hmax : max (0 : ℚ) (100 - 100 - 0) = 0 := by norm_num
    rw [hmax, round2_0]
  have hok : main_step env_normal "x" 0 2 = .ok resultado_normal := by
    have hstep : main_step env_normal "x" 0 2 = .ok
        { pasto := (respuesta_q85 env_normal img11 0).pasto,
          tierra := (respuesta_q85 env_normal img11 0).tierra,
          otros := (respuesta_q85 env_normal img11 0).otros,
          overlay_image := (respuesta_q85 env_normal img11 0).overlay_image,
          timestamp := (respuesta_q85 env_normal img11 0).timestamp,
          tiempo_procesamiento := round3 2 } := rfl
    rw [hstep, hp, ht, ho, round3_2]
    rfl
  exact ⟨rfl, rfl, rfl, hok,
    c8_result_fields env_normal "x" 0 2 img11 resultado_normal rfl rfl rfl hok⟩

end Pdi
